import Mathlib

/-
  Verification of the SimpleCrew offline-caching service worker
  (source: the service worker script, first document of src/unnamed/part_000).

  The embedding models the browser environment shallowly:
  - a `Response` is a snapshot (status, content type, body); `Response.ok`
    mirrors the JS `response.ok` accessor (status in the 2xx range);
  - a `Cache` is an association list from request identity (URL string) to
    response snapshots; `Cache.put` overwrites the prior entry for a key;
  - the `CacheStorage` is an association list from store names to caches,
    mirroring `caches.open` / `caches.match` / `caches.keys` / `caches.delete`;
  - the network is a function from URL to `Option Response`; `none` models a
    rejected fetch (network failure), `some r` a fetch resolving with `r`;
  - promise outcomes of the fetch handler are `FetchOutcome`: resolving with a
    response, resolving with `undefined` (no response), or rejecting.
-/

namespace SimpleCrew

/-- Snapshot of an HTTP response: status code, Content-Type header, body. -/
structure Response where
  status : Nat
  contentType : Option String
  body : String
deriving DecidableEq, Repr

/-- JS `response.ok`: true when the status is in the 2xx range. -/
def Response.ok (r : Response) : Bool :=
  200 ≤ r.status && r.status ≤ 299

/-- An intercepted request: the full URL, its parsed pathname (as produced by
`new URL(event.request.url).pathname`), the HTTP method, and the request mode
(`"navigate"` for page navigations). -/
structure Request where
  url : String
  pathname : String
  method : String
  mode : String
deriving DecidableEq, Repr

/-- A cache store: request identity (URL) to response snapshot pairs. -/
abbrev Cache := List (String × Response)

/-- The browser cache storage: named cache stores. -/
abbrev CacheStorage := List (String × Cache)

/-- The network: each URL either resolves to a response or fails. -/
abbrev Network := String → Option Response

/-- `cache.put(request, response)`: a new write overwrites the prior entry for
the same request identity. -/
def cachePut (c : Cache) (key : String) (r : Response) : Cache :=
  (key, r) :: c.filter (fun e => e.1 != key)

/-- `cache.match(request)` on a single store: first entry for the key. -/
def cacheMatch (c : Cache) (key : String) : Option Response :=
  (c.find? (fun e => e.1 == key)).map Prod.snd

/-- `caches.open(name)`: returns the storage with the named store present,
creating an empty store when absent. -/
def cachesOpen (s : CacheStorage) (name : String) : CacheStorage :=
  if s.any (fun e => e.1 == name) then s else s ++ [(name, [])]

/-- `caches.open(name).then(cache => cache.put(key, r))`: write into the named
store, creating it when absent. -/
def storagePut (s : CacheStorage) (name key : String) (r : Response) : CacheStorage :=
  match s with
  | [] => [(name, cachePut [] key r)]
  | e :: rest =>
    if e.1 == name then (e.1, cachePut e.2 key r) :: rest
    else e :: storagePut rest name key r

/-- `caches.match(request)`: search every store, in order, for the key. -/
def cachesMatch (s : CacheStorage) (key : String) : Option Response :=
  match s with
  | [] => none
  | e :: rest =>
    match cacheMatch e.2 key with
    | some r => some r
    | none => cachesMatch rest key

/-- The contents of the named store (empty when the store is absent). -/
def storeOf (s : CacheStorage) (name : String) : Cache :=
  match s with
  | [] => []
  | e :: rest => if e.1 == name then e.2 else storeOf rest name

/-- The version constant `CACHE_NAME` of the source. -/
def CACHE_NAME : String := "simple-finance-v10"

/-- The pre-population list `urlsToCache` of the source. -/
def urlsToCache : List String :=
  ["/manifest.json", "/static/images/192.png", "/static/images/512.png"]

/-- `cache.add(url)`: fetch the URL and store the response; rejects when the
fetch fails or the response is not ok. -/
def cacheAdd (net : Network) (s : CacheStorage) (name url : String) :
    Except String CacheStorage :=
  match net url with
  | none => Except.error "fetch failed"
  | some r =>
    if r.ok then Except.ok (storagePut s name url r)
    else Except.error "response not ok"

/-- One settled pre-population attempt:
`cache.add(url).catch(err => console.warn(...))` — a failure is logged and
swallowed, leaving the storage unchanged; returns the storage together with
the record (url, succeeded). -/
def settleAdd (net : Network) (name : String) (s : CacheStorage) (url : String) :
    CacheStorage × Bool :=
  match cacheAdd net s name url with
  | Except.ok s2 => (s2, true)
  | Except.error _ => (s, false)

/-- Result of the install phase: the cache storage, the settlement record of
every pre-population attempt in order, and whether `skipWaiting` was
requested. -/
structure InstallResult where
  storage : CacheStorage
  settled : List (String × Bool)
  skipWaitingRequested : Bool
deriving DecidableEq, Repr

/-- One step of the pre-population fold: settle the add of one URL and append
its settlement record. -/
def installStep (net : Network) (cacheName : String)
    (acc : CacheStorage × List (String × Bool)) (url : String) :
    CacheStorage × List (String × Bool) :=
  let r := settleAdd net cacheName acc.1 url
  (r.1, acc.2 ++ [(url, r.2)])

/-- The `install` handler: open the version-named store, pre-populate it with
each URL independently (`Promise.allSettled`, each add with its own `catch`),
then request `skipWaiting`. -/
def install (net : Network) (cacheName : String) (urls : List String)
    (s : CacheStorage) : InstallResult :=
  let final := urls.foldl (installStep net cacheName) (cachesOpen s cacheName, [])
  ⟨final.1, final.2, true⟩

/-- Result of the activate phase: the cache storage after stale-store
deletion, and whether `clients.claim()` was invoked. -/
structure ActivateResult where
  storage : CacheStorage
  claimedClients : Bool
deriving DecidableEq, Repr

/-- The `activate` handler: delete every store whose name differs from the
current version constant, and claim all clients. -/
def activate (current : String) (s : CacheStorage) : ActivateResult :=
  ⟨s.filter (fun e => e.1 == current), true⟩

/-- Outcome of the promise passed to `event.respondWith`: resolved with a
response, resolved with `undefined` (no response), or rejected. -/
inductive FetchOutcome where
  | response (r : Response)
  | noResponse
  | rejected
deriving DecidableEq, Repr

/-- Result of handling one fetch event: the promise outcome, the cache storage
afterwards, and instrumentation flags recording whether the network was
fetched and whether any cache store was read. -/
structure HandleResult where
  outcome : FetchOutcome
  storage : CacheStorage
  networkCalled : Bool
  cacheRead : Bool
deriving DecidableEq, Repr

/-- JS `s.startsWith(p)`, computed on the character lists. -/
def strStartsWith (s p : String) : Bool :=
  p.data.isPrefixOf s.data

/-- The API classification: `url.pathname.startsWith('/api/')`. -/
def isApi (req : Request) : Bool :=
  strStartsWith req.pathname "/api/"

/-- The network-first classification: navigation requests and script/style
asset paths. -/
def isNetworkFirst (req : Request) : Bool :=
  req.mode == "navigate"
    || strStartsWith req.pathname "/static/js/"
    || strStartsWith req.pathname "/static/css/"

/-- The synthesized offline response of the API branch:
`new Response(JSON.stringify(\x7b error: 'Offline' \x7d), \x7b status: 503,
headers: \x7b 'Content-Type': 'application/json' \x7d \x7d)`. -/
def offlineResponse : Response :=
  ⟨503, some "application/json", "\x7b\"error\":\"Offline\"\x7d"⟩

/-- The JSON serialization of an object with a single `error` field. -/
def jsonSingleErrorField (msg : String) : String :=
  "\x7b\"error\":\"" ++ msg ++ "\"\x7d"

/-- The `fetch` handler. `netResult` is the outcome of `fetch(event.request)`:
`none` models a rejected fetch. Classification and policies follow the source:
API paths are network-only with a synthesized 503 for failed GETs (the catch
returns `undefined` for other methods, so the promise resolves with no
response); navigation/script/style requests are network-first with an
opportunistic cache write of ok responses and a cache fallback on failure;
everything else is cache-first with no write-back. -/
def handleFetch (req : Request) (netResult : Option Response) (s : CacheStorage) :
    HandleResult :=
  if isApi req then
    match netResult with
    | some r => ⟨FetchOutcome.response r, s, true, false⟩
    | none =>
      if req.method == "GET" then
        ⟨FetchOutcome.response offlineResponse, s, true, false⟩
      else
        ⟨FetchOutcome.noResponse, s, true, false⟩
  else if isNetworkFirst req then
    match netResult with
    | some r =>
      if r.ok then
        ⟨FetchOutcome.response r, storagePut s CACHE_NAME req.url r, true, false⟩
      else
        ⟨FetchOutcome.response r, s, true, false⟩
    | none =>
      match cachesMatch s req.url with
      | some cached => ⟨FetchOutcome.response cached, s, true, true⟩
      | none => ⟨FetchOutcome.noResponse, s, true, true⟩
  else
    match cachesMatch s req.url with
    | some cached => ⟨FetchOutcome.response cached, s, false, true⟩
    | none =>
      match netResult with
      | some r => ⟨FetchOutcome.response r, s, true, true⟩
      | none => ⟨FetchOutcome.rejected, s, true, true⟩

/-- The nested `notification` object of a JSON push payload: its optional
`title` and `body` fields (absent fields are `none`; a present-but-empty
string is `some ""`). -/
structure PushJson where
  notifTitle : Option String
  notifBody : Option String
deriving DecidableEq, Repr

/-- The `event.data` of a push event: the result of `event.data.json()`
(`none` when parsing throws) and the raw `event.data.text()`. -/
structure PushMessageData where
  json : Option PushJson
  text : String
deriving DecidableEq, Repr

/-- JS `v || dflt` for an optionally-present string field: `undefined` and
the empty string are falsy. -/
def jsOrElse (v : Option String) (dflt : String) : String :=
  match v with
  | some s => if s == "" then dflt else s
  | none => dflt

/-- The options object passed to `showNotification`. -/
structure NotificationOptions where
  body : String
  icon : String
  badge : String
  tag : String
  requireInteraction : Bool
  vibrate : List Nat
deriving DecidableEq, Repr

/-- One displayed notification: the title and the options object. -/
structure ShownNotification where
  title : String
  options : NotificationOptions
deriving DecidableEq, Repr

/-- The `push` handler: build the notification data from the defaults, the
parsed JSON payload (title/body via `||` fallbacks) or the raw payload text
(on parse failure), then show exactly one notification. Returns the list of
notifications shown by the handler. -/
def handlePush (data : Option PushMessageData) : List ShownNotification :=
  let titleBody : String × String :=
    match data with
    | none => ("SimpleCrew", "New notification")
    | some d =>
      match d.json with
      | some payload =>
        (jsOrElse payload.notifTitle "SimpleCrew",
         jsOrElse payload.notifBody "New notification")
      | none => ("SimpleCrew", d.text)
  [⟨titleBody.1,
    ⟨titleBody.2, "/static/images/192.png", "/static/images/badge.png",
     "simplecrew-sync", false, [200, 100, 200]⟩⟩]

/-- Claim C2: for every request whose URL path starts with the API prefix
`/api/`, handling the request neither reads any cache store nor writes any
cache entry — the cache-storage state after the request equals the state
before it, whether the network fetch succeeds or fails. -/
theorem c2_api_never_touches_cache (req : Request) (netResult : Option Response)
    (s : CacheStorage) (h : isApi req = true) :
    (handleFetch req netResult s).storage = s ∧
    (handleFetch req netResult s).cacheRead = false := by
  cases netResult with
  | none =>
    by_cases hm : req.method == "GET" <;> simp [handleFetch, h, hm]
  | some r => simp [handleFetch, h]

/-- Witness for C2 at a concrete failed API request. -/
theorem c2_api_never_touches_cache_witness :
    isApi ⟨"https://app.example/api/items", "/api/items", "GET", "cors"⟩ = true ∧
    ((handleFetch ⟨"https://app.example/api/items", "/api/items", "GET", "cors"⟩
        none []).storage = [] ∧
     (handleFetch ⟨"https://app.example/api/items", "/api/items", "GET", "cors"⟩
        none []).cacheRead = false) :=
  ⟨rfl, c2_api_never_touches_cache _ none [] rfl⟩

/-- Counterexample to C3 as stated: for a POST API request whose fetch fails,
the handler's promise does not reject — the catch callback returns
`undefined`, so the promise resolves with no response. -/
theorem c3_counterexample :
    (handleFetch ⟨"https://app.example/api/items", "/api/items", "POST", "cors"⟩
        none []).outcome = FetchOutcome.noResponse ∧
    (handleFetch ⟨"https://app.example/api/items", "/api/items", "POST", "cors"⟩
        none []).outcome ≠ FetchOutcome.rejected := by
  exact ⟨rfl, by decide⟩

/-- Claim C3 (amended): for every API-prefixed request with a method other
than GET whose network fetch fails, the handler's promise resolves with no
response (`undefined`) — no substitute response is synthesized — rather than
rejecting. -/
theorem c3_api_nonget_failure_no_response (req : Request) (s : CacheStorage)
    (h : isApi req = true) (hm : req.method ≠ "GET") :
    handleFetch req none s = ⟨FetchOutcome.noResponse, s, true, false⟩ := by
  have hm2 : (req.method == "GET") = false := by
    simp [hm]
  simp [handleFetch, h, hm2]

/-- Witness for the amended C3 at a concrete failed POST API request. -/
theorem c3_api_nonget_failure_no_response_witness :
    isApi ⟨"https://app.example/api/items", "/api/items", "PUT", "cors"⟩ = true ∧
    handleFetch ⟨"https://app.example/api/items", "/api/items", "PUT", "cors"⟩
        none [] = ⟨FetchOutcome.noResponse, [], true, false⟩ :=
  ⟨rfl, c3_api_nonget_failure_no_response _ [] rfl (by decide)⟩

/-- Counterexample to C4 as stated: HEAD is a read (no-body) method, but for
a failed HEAD API request the handler synthesizes nothing — the promise
resolves with no response instead of a 503 JSON response. -/
theorem c4_counterexample :
    (handleFetch ⟨"https://app.example/api/items", "/api/items", "HEAD", "cors"⟩
        none []).outcome = FetchOutcome.noResponse ∧
    (handleFetch ⟨"https://app.example/api/items", "/api/items", "HEAD", "cors"⟩
        none []).outcome ≠ FetchOutcome.response offlineResponse := by
  exact ⟨rfl, by decide⟩

/-- Claim C4 (amended): for every API-prefixed request with the GET method
whose network fetch fails, the handler returns a synthesized response with
status 503, content type `application/json`, and a JSON body with a single
`error` field describing an offline condition. -/
theorem c4_api_get_failure_offline_503 (req : Request) (s : CacheStorage)
    (h : isApi req = true) (hm : req.method = "GET") :
    handleFetch req none s = ⟨FetchOutcome.response offlineResponse, s, true, false⟩ ∧
    offlineResponse.status = 503 ∧
    offlineResponse.contentType = some "application/json" ∧
    offlineResponse.body = jsonSingleErrorField "Offline" := by
  refine ⟨?_, rfl, rfl, rfl⟩
  simp [handleFetch, h, hm]

/-- Witness for the amended C4 at a concrete failed GET API request. -/
theorem c4_api_get_failure_offline_503_witness :
    isApi ⟨"https://app.example/api/cards", "/api/cards", "GET", "cors"⟩ = true ∧
    handleFetch ⟨"https://app.example/api/cards", "/api/cards", "GET", "cors"⟩
        none [] = ⟨FetchOutcome.response offlineResponse, [], true, false⟩ :=
  ⟨rfl, (c4_api_get_failure_offline_503
    ⟨"https://app.example/api/cards", "/api/cards", "GET", "cors"⟩ [] rfl rfl).1⟩

/-- Claim C8: on every push event exactly one notification is shown, with the
fixed icon, badge and coalescing tag `simplecrew-sync`; when the payload
parses as JSON the title and body come from the nested notification object
with the fixed defaults for absent fields, and when parsing fails the raw
payload text becomes the body while the default title is retained. -/
theorem c8_push_shows_one_notification (d : PushMessageData) :
    handlePush (some d) =
      [⟨(match d.json with
         | some payload => jsOrElse payload.notifTitle "SimpleCrew"
         | none => "SimpleCrew"),
        ⟨(match d.json with
          | some payload => jsOrElse payload.notifBody "New notification"
          | none => d.text),
         "/static/images/192.png", "/static/images/badge.png",
         "simplecrew-sync", false, [200, 100, 200]⟩⟩] := by
  cases d with
  | mk j t => cases j <;> rfl

/-- Counterexample to C10 as stated: a push whose payload is present but is
the empty string fails JSON parsing, and the parse-failure fallback copies
the raw text into the body — the shown notification's body is empty. -/
theorem c10_counterexample :
    (handlePush (some ⟨none, ""⟩)).map (fun n => n.options.body) = [""] := rfl

/-- Claim C10 (amended): falsy (absent or empty-string) title/body fields of
a JSON-parsed payload fall back to the fixed defaults, so a JSON-parsed
payload never yields an empty title or body, and no payload at all yields an
empty title; only the parse-failure fallback with empty raw text yields an
empty body. -/
theorem c10_falsy_fields_use_defaults (d : Option PushMessageData)
    (n : ShownNotification) (hn : n ∈ handlePush d) :
    n.title ≠ "" ∧
    (∀ pd payload, d = some pd → pd.json = some payload → n.options.body ≠ "") := by
  have hne1 : ("SimpleCrew" : String) ≠ "" := by decide
  have hne2 : ("New notification" : String) ≠ "" := by decide
  have hOr : ∀ (v : Option String) (dflt : String), dflt ≠ "" → jsOrElse v dflt ≠ "" := by
    intro v dflt hd
    cases v with
    | none => exact hd
    | some str =>
      by_cases hs : str = ""
      · simp only [jsOrElse, hs]
        simpa using hd
      · simp [jsOrElse, hs]
  cases d with
  | none =>
    simp only [handlePush, List.mem_singleton] at hn
    subst hn
    exact ⟨hne1, by intro pd payload hpd; exact absurd hpd (by simp)⟩
  | some pd =>
    cases hj : pd.json with
    | none =>
      refine ⟨?_, ?_⟩
      · simp only [handlePush, hj, List.mem_singleton] at hn
        subst hn
        exact hne1
      · intro pd2 payload hpd hjson
        injection hpd with hpd2
        subst hpd2
        rw [hj] at hjson
        simp at hjson
    | some payload =>
      simp only [handlePush, hj, List.mem_singleton] at hn
      subst hn
      refine ⟨hOr _ _ hne1, ?_⟩
      intro pd2 payload2 hpd hjson
      exact hOr _ _ hne2

/-- Witness for the amended C10 at a JSON payload with empty-string fields. -/
theorem c10_falsy_fields_use_defaults_witness :
    (⟨"SimpleCrew",
      ⟨"New notification", "/static/images/192.png", "/static/images/badge.png",
       "simplecrew-sync", false, [200, 100, 200]⟩⟩ : ShownNotification) ∈
      handlePush (some ⟨some ⟨some "", some ""⟩, "raw"⟩) ∧
    ("SimpleCrew" : String) ≠ "" ∧ ("New notification" : String) ≠ "" := by
  have hmem : (⟨"SimpleCrew",
      ⟨"New notification", "/static/images/192.png", "/static/images/badge.png",
       "simplecrew-sync", false, [200, 100, 200]⟩⟩ : ShownNotification) ∈
      handlePush (some ⟨some ⟨some "", some ""⟩, "raw"⟩) := by
    simp [handlePush, jsOrElse]
  have h := c10_falsy_fields_use_defaults (some ⟨some ⟨some "", some ""⟩, "raw"⟩) _ hmem
  exact ⟨hmem, h.1, h.2 _ _ rfl rfl⟩

/-- A write into a store makes the written snapshot the store's match for
its key. -/
lemma cacheMatch_cachePut (c : Cache) (k : String) (r : Response) :
    cacheMatch (cachePut c k r) k = some r := by
  unfold cacheMatch cachePut
  rw [List.find?_cons_of_pos]
  · rfl
  · simp

/-- Writing through the storage into the named store writes into that store's
contents. -/
lemma storeOf_storagePut (s : CacheStorage) (n k : String) (r : Response) :
    storeOf (storagePut s n k r) n = cachePut (storeOf s n) k r := by
  induction s with
  | nil => simp [storagePut, storeOf]
  | cons e rest ih =>
    by_cases he : (e.1 == n) = true
    · simp [storagePut, storeOf, he]
    · simp [storagePut, storeOf, he, ih]

/-- Claim C5: for navigation requests and script/style asset requests, a 2xx
network response is returned live and a clone of it is written into the
current cache store keyed by the request (so the store's snapshot for the
request is that response); on network failure the handler returns whatever
snapshot the cache lookup finds, which may be nothing. -/
theorem c5_network_first_policy (req : Request) (s : CacheStorage) (r : Response)
    (hapi : isApi req = false) (hnf : isNetworkFirst req = true) :
    (r.ok = true →
      handleFetch req (some r) s =
        ⟨FetchOutcome.response r, storagePut s CACHE_NAME req.url r, true, false⟩ ∧
      cacheMatch (storeOf (handleFetch req (some r) s).storage CACHE_NAME) req.url
        = some r) ∧
    handleFetch req none s =
      ⟨(match cachesMatch s req.url with
        | some cached => FetchOutcome.response cached
        | none => FetchOutcome.noResponse), s, true, true⟩ := by
  constructor
  · intro hok
    have heq : handleFetch req (some r) s =
        ⟨FetchOutcome.response r, storagePut s CACHE_NAME req.url r, true, false⟩ := by
      simp [handleFetch, hapi, hnf, hok]
    refine ⟨heq, ?_⟩
    rw [heq]
    show cacheMatch (storeOf (storagePut s CACHE_NAME req.url r) CACHE_NAME) req.url
      = some r
    rw [storeOf_storagePut]
    exact cacheMatch_cachePut _ _ _
  · cases hcm : cachesMatch s req.url <;> simp [handleFetch, hapi, hnf, hcm]

/-- Witness for C5 at a concrete script-asset request with a 200 response. -/
theorem c5_network_first_policy_witness :
    isApi ⟨"https://app.example/static/js/app.js", "/static/js/app.js", "GET", "cors"⟩
      = false ∧
    isNetworkFirst
      ⟨"https://app.example/static/js/app.js", "/static/js/app.js", "GET", "cors"⟩
      = true ∧
    (⟨200, some "text/javascript", "code"⟩ : Response).ok = true ∧
    handleFetch
      ⟨"https://app.example/static/js/app.js", "/static/js/app.js", "GET", "cors"⟩
      (some ⟨200, some "text/javascript", "code"⟩) [] =
      ⟨FetchOutcome.response ⟨200, some "text/javascript", "code"⟩,
       storagePut [] CACHE_NAME "https://app.example/static/js/app.js"
         ⟨200, some "text/javascript", "code"⟩, true, false⟩ :=
  ⟨rfl, rfl, rfl,
    ((c5_network_first_policy
      ⟨"https://app.example/static/js/app.js", "/static/js/app.js", "GET", "cors"⟩
      [] ⟨200, some "text/javascript", "code"⟩ rfl rfl).1 rfl).1⟩

/-- Claim C6: for requests classified neither API nor navigation/script/style,
a cached snapshot is returned unchanged with no network fetch; on a cache
miss the network fetch's result is returned (a rejected fetch propagates) and
nothing is written back into the cache storage. -/
theorem c6_cache_first_policy (req : Request) (netResult : Option Response)
    (s : CacheStorage) (hapi : isApi req = false) (hnf : isNetworkFirst req = false) :
    (∀ cached, cachesMatch s req.url = some cached →
      handleFetch req netResult s = ⟨FetchOutcome.response cached, s, false, true⟩) ∧
    (cachesMatch s req.url = none →
      handleFetch req netResult s =
        ⟨(match netResult with
          | some r => FetchOutcome.response r
          | none => FetchOutcome.rejected), s, true, true⟩) := by
  constructor
  · intro cached hcm
    simp [handleFetch, hapi, hnf, hcm]
  · intro hcm
    cases netResult <;> simp [handleFetch, hapi, hnf, hcm]

/-- Witness for C6 at a concrete image request with a cached snapshot. -/
theorem c6_cache_first_policy_witness :
    isApi ⟨"https://app.example/static/images/512.png", "/static/images/512.png",
      "GET", "cors"⟩ = false ∧
    isNetworkFirst ⟨"https://app.example/static/images/512.png",
      "/static/images/512.png", "GET", "cors"⟩ = false ∧
    cachesMatch
      [(CACHE_NAME, [("https://app.example/static/images/512.png",
        ⟨200, some "image/png", "png"⟩)])]
      "https://app.example/static/images/512.png"
      = some ⟨200, some "image/png", "png"⟩ ∧
    handleFetch
      ⟨"https://app.example/static/images/512.png", "/static/images/512.png",
        "GET", "cors"⟩
      none
      [(CACHE_NAME, [("https://app.example/static/images/512.png",
        ⟨200, some "image/png", "png"⟩)])] =
      ⟨FetchOutcome.response ⟨200, some "image/png", "png"⟩,
       [(CACHE_NAME, [("https://app.example/static/images/512.png",
         ⟨200, some "image/png", "png"⟩)])], false, true⟩ :=
  ⟨rfl, rfl, rfl,
    (c6_cache_first_policy
      ⟨"https://app.example/static/images/512.png", "/static/images/512.png",
        "GET", "cors"⟩
      none
      [(CACHE_NAME, [("https://app.example/static/images/512.png",
        ⟨200, some "image/png", "png"⟩)])] rfl rfl).1
      ⟨200, some "image/png", "png"⟩ rfl⟩

/-- The pre-population fold settles one record per URL, in order, no matter
which adds fail. -/
lemma settled_foldl_installStep (net : Network) (cacheName : String) :
    ∀ (urls : List String) (acc : CacheStorage × List (String × Bool)),
      ((urls.foldl (installStep net cacheName) acc).2).map Prod.fst =
        acc.2.map Prod.fst ++ urls := by
  intro urls
  induction urls with
  | nil => intro acc; simp
  | cons u us ih =>
    intro acc
    rw [List.foldl_cons, ih]
    simp [installStep]

/-- Claim C7: during install every pre-population asset fetch is attempted
and settled independently — an individual failure is swallowed and the fold
reaches every URL (settle-all, not fail-fast) for any network behaviour —
and the worker requests to skip its waiting period after all attempts have
settled. -/
theorem c7_install_settle_all (net : Network) (cacheName : String)
    (urls : List String) (s : CacheStorage) :
    (install net cacheName urls s).settled.map Prod.fst = urls ∧
    (install net cacheName urls s).skipWaitingRequested = true := by
  constructor
  · have h := settled_foldl_installStep net cacheName urls (cachesOpen s cacheName, [])
    simpa [install] using h
  · rfl

/-- The number of entries a store holds for one request identity. -/
def countKey (c : Cache) (key : String) : Nat :=
  (c.filter (fun e => e.1 == key)).length

/-- After a write, the store holds exactly the written pair for that key. -/
lemma filter_cachePut_self (c : Cache) (k : String) (r : Response) :
    (cachePut c k r).filter (fun e => e.1 == k) = [(k, r)] := by
  unfold cachePut
  rw [List.filter_cons_of_pos (by simp)]
  suffices h : (c.filter (fun e => e.1 != k)).filter (fun e => e.1 == k) = [] by
    rw [h]
  induction c with
  | nil => rfl
  | cons e rest ih =>
    by_cases he : (e.1 == k) = true
    · have hne : (e.1 != k) = false := by simp [bne, he]
      simp [List.filter_cons, hne, ih]
    · have hne : (e.1 != k) = true := by simp [bne, he]
      simp [List.filter_cons, hne, he, ih]

/-- After a write, the store holds exactly one entry for that key. -/
lemma countKey_cachePut (c : Cache) (k : String) (r : Response) :
    countKey (cachePut c k r) k = 1 := by
  unfold countKey
  rw [filter_cachePut_self]
  rfl

/-- Claim C9: pre-caching the same asset URL twice during install does not
error — both adds settle successfully — and leaves exactly one entry for
that request identity in the store (the later write overwrites the earlier
one). -/
theorem c9_precache_twice_idempotent (net : Network) (s : CacheStorage)
    (u : String) (r : Response) (hnet : net u = some r) (hok : r.ok = true) :
    (install net CACHE_NAME [u, u] s).settled = [(u, true), (u, true)] ∧
    countKey (storeOf (install net CACHE_NAME [u, u] s).storage CACHE_NAME) u = 1 := by
  have hadd : ∀ s2 : CacheStorage,
      settleAdd net CACHE_NAME s2 u = (storagePut s2 CACHE_NAME u r, true) := by
    intro s2
    simp [settleAdd, cacheAdd, hnet, hok]
  have hinst : install net CACHE_NAME [u, u] s =
      ⟨storagePut (storagePut (cachesOpen s CACHE_NAME) CACHE_NAME u r) CACHE_NAME u r,
       [(u, true), (u, true)], true⟩ := by
    simp [install, installStep, hadd]
  rw [hinst]
  refine ⟨rfl, ?_⟩
  show countKey
    (storeOf (storagePut (storagePut (cachesOpen s CACHE_NAME) CACHE_NAME u r)
      CACHE_NAME u r) CACHE_NAME) u = 1
  rw [storeOf_storagePut]
  exact countKey_cachePut _ _ _

/-- Witness for C9 at a concrete asset URL fetched successfully. -/
theorem c9_precache_twice_idempotent_witness :
    (fun x => some (⟨200, none, x⟩ : Response) : Network) "/manifest.json"
      = some ⟨200, none, "/manifest.json"⟩ ∧
    (⟨200, none, "/manifest.json"⟩ : Response).ok = true ∧
    ((install (fun x => some ⟨200, none, x⟩) CACHE_NAME
        ["/manifest.json", "/manifest.json"] []).settled =
      [("/manifest.json", true), ("/manifest.json", true)] ∧
     countKey (storeOf (install (fun x => some ⟨200, none, x⟩) CACHE_NAME
        ["/manifest.json", "/manifest.json"] []).storage CACHE_NAME)
        "/manifest.json" = 1) :=
  ⟨rfl, rfl,
    c9_precache_twice_idempotent (fun x => some ⟨200, none, x⟩) [] "/manifest.json"
      ⟨200, none, "/manifest.json"⟩ rfl rfl⟩

/-- `caches.open` leaves the store names unchanged when the name is present,
and appends the name otherwise. -/
lemma names_cachesOpen (s : CacheStorage) (name : String) :
    (cachesOpen s name).map Prod.fst =
      if name ∈ s.map Prod.fst then s.map Prod.fst
      else s.map Prod.fst ++ [name] := by
  have hany : (s.any (fun e => e.1 == name) = true) ↔ name ∈ s.map Prod.fst := by
    rw [List.any_eq_true]
    constructor
    · rintro ⟨e, he, heq⟩
      exact List.mem_map.mpr ⟨e, he, beq_iff_eq.mp heq⟩
    · intro h
      rcases List.mem_map.mp h with ⟨e, he, heq⟩
      exact ⟨e, he, beq_iff_eq.mpr heq⟩
  unfold cachesOpen
  by_cases h : name ∈ s.map Prod.fst
  · rw [if_pos (hany.mpr h), if_pos h]
  · rw [if_neg (fun hc => h (hany.mp hc)), if_neg h]
    simp

/-- The opened name is among the store names after `caches.open`. -/
lemma mem_names_cachesOpen (s : CacheStorage) (name : String) :
    name ∈ (cachesOpen s name).map Prod.fst := by
  rw [names_cachesOpen]
  by_cases h : name ∈ s.map Prod.fst
  · rw [if_pos h]; exact h
  · rw [if_neg h]; simp

/-- A write into an already-present store leaves the store names unchanged. -/
lemma names_storagePut_of_mem (s : CacheStorage) (name k : String) (r : Response)
    (h : name ∈ s.map Prod.fst) :
    (storagePut s name k r).map Prod.fst = s.map Prod.fst := by
  induction s with
  | nil => simp at h
  | cons e rest ih =>
    by_cases he : (e.1 == name) = true
    · simp [storagePut, he]
    · have h2 : name ∈ rest.map Prod.fst := by
        rcases List.mem_cons.mp h with h1 | h1
        · exact absurd (beq_iff_eq.mpr h1.symm) (by simpa using he)
        · exact h1
      simp [storagePut, he, ih h2]

/-- The pre-population fold never changes the store names once the opened
store is present. -/
lemma names_foldl_installStep (net : Network) (v : String) :
    ∀ (urls : List String) (acc : CacheStorage × List (String × Bool)),
      v ∈ acc.1.map Prod.fst →
      ((urls.foldl (installStep net v) acc).1).map Prod.fst = acc.1.map Prod.fst := by
  intro urls
  induction urls with
  | nil => intro acc _; rfl
  | cons u us ih =>
    intro acc h
    rw [List.foldl_cons]
    have hstep : ((installStep net v acc u).1).map Prod.fst = acc.1.map Prod.fst := by
      unfold installStep settleAdd cacheAdd
      cases hn : net u with
      | none => rfl
      | some r =>
        by_cases hok : r.ok = true
        · simp only [hok, if_pos]
          exact names_storagePut_of_mem acc.1 v u r h
        · simp only [hok]
          rfl
    have hmem : v ∈ ((installStep net v acc u).1).map Prod.fst := by
      rw [hstep]; exact h
    rw [ih _ hmem, hstep]

/-- The install phase changes the store names only by opening the current
store. -/
lemma names_install (net : Network) (v : String) (urls : List String)
    (s : CacheStorage) :
    (install net v urls s).storage.map Prod.fst = (cachesOpen s v).map Prod.fst := by
  have h := names_foldl_installStep net v urls (cachesOpen s v, [])
    (mem_names_cachesOpen s v)
  simpa [install] using h

/-- Stale-store deletion during activation filters the store names. -/
lemma names_activate (v : String) (s : CacheStorage) :
    ((activate v s).storage).map Prod.fst =
      (s.map Prod.fst).filter (fun x => x == v) := by
  induction s with
  | nil => rfl
  | cons e rest ih =>
    by_cases he : (e.1 == v) = true
    · simpa [activate, List.filter_cons, he] using ih
    · simpa [activate, List.filter_cons, he] using ih

/-- Filtering for an absent name yields nothing. -/
lemma filter_eq_nil_of_not_mem (l : List String) (v : String) (h : v ∉ l) :
    l.filter (fun x => x == v) = [] := by
  induction l with
  | nil => rfl
  | cons a rest ih =>
    have ha : (a == v) = false := by
      have hne : a ≠ v := fun hh => h (hh ▸ List.mem_cons_self a rest)
      simp [hne]
    rw [List.filter_cons]
    simp only [ha, Bool.false_eq_true, if_false]
    exact ih (fun hm => h (List.mem_cons_of_mem a hm))

/-- On a duplicate-free name list, filtering for a present name yields
exactly that name. -/
lemma filter_eq_singleton_of_nodup (l : List String) (v : String)
    (hnd : l.Nodup) (hm : v ∈ l) : l.filter (fun x => x == v) = [v] := by
  induction l with
  | nil => simp at hm
  | cons a rest ih =>
    rcases List.mem_cons.mp hm with h1 | h1
    · subst h1
      rw [List.filter_cons]
      simp only [beq_self_eq_true, if_true]
      rw [filter_eq_nil_of_not_mem rest v (List.nodup_cons.mp hnd).1]
    · have ha : (a == v) = false := by
        have hne : a ≠ v := by
          intro hh
          subst hh
          exact (List.nodup_cons.mp hnd).1 h1
        simp [hne]
      rw [List.filter_cons]
      simp only [ha, Bool.false_eq_true, if_false]
      exact ih (List.nodup_cons.mp hnd).2 h1

/-- One worker deployment cycle with version constant `v`: the install phase
followed by the activate phase, as the worker lifecycle runs them. -/
def lifecycle (net : Network) (v : String) (s : CacheStorage) : CacheStorage :=
  (activate v (install net v urlsToCache s).storage).storage

/-- Claim C1: after install-plus-activation the cache storage holds exactly
one store, named by the current version constant; for two consecutive
deployments with different version constants, after the second activation
the store names are exactly the new version constant — no stale-version
store remains. -/
theorem c1_activation_exactly_current_store (net1 net2 : Network)
    (s : CacheStorage) (v1 v2 : String)
    (hnd : (s.map Prod.fst).Nodup) (_hne : v1 ≠ v2) :
    (lifecycle net1 v1 s).map Prod.fst = [v1] ∧
    (lifecycle net2 v2 (lifecycle net1 v1 s)).map Prod.fst = [v2] := by
  have names_lifecycle : ∀ (net : Network) (v : String) (t : CacheStorage),
      (t.map Prod.fst).Nodup → (lifecycle net v t).map Prod.fst = [v] := by
    intro net v t hndt
    unfold lifecycle
    rw [names_activate, names_install, names_cachesOpen]
    by_cases h : v ∈ t.map Prod.fst
    · rw [if_pos h]
      exact filter_eq_singleton_of_nodup _ _ hndt h
    · rw [if_neg h, List.filter_append, filter_eq_nil_of_not_mem _ _ h]
      simp
  have h1 := names_lifecycle net1 v1 s hnd
  have hnd2 : ((lifecycle net1 v1 s).map Prod.fst).Nodup := by
    rw [h1]
    simp
  exact ⟨h1, names_lifecycle net2 v2 _ hnd2⟩

/-- Witness for C1 at two concrete consecutive versions, starting from an
empty cache storage with an all-failing network. -/
theorem c1_activation_exactly_current_store_witness :
    (([] : CacheStorage).map Prod.fst).Nodup ∧
    ("simple-finance-v9" : String) ≠ "simple-finance-v10" ∧
    ((lifecycle (fun _ => none) "simple-finance-v9" []).map Prod.fst
        = ["simple-finance-v9"] ∧
     (lifecycle (fun _ => none) "simple-finance-v10"
        (lifecycle (fun _ => none) "simple-finance-v9" [])).map Prod.fst
        = ["simple-finance-v10"]) :=
  ⟨List.nodup_nil, by decide,
    c1_activation_exactly_current_store (fun _ => none) (fun _ => none) []
      "simple-finance-v9" "simple-finance-v10" List.nodup_nil (by decide)⟩

end SimpleCrew
